import Mathlib

/-
Verification of EBRL/xnat-cleaner (src/cleaner.py) against its
natural-language specification.

Shallow embedding conventions:
- A pandas DataFrame of session rows is a `List SessionRecord`; a DataFrame
  of scan rows is a `List ScanRecord` (the columns are the record fields).
- The dax/XNAT client is passed in as functions: `list_scans` maps a session
  label to its scan rows; `set_scan_type` models
  `interface.select(id).attrs.set("scan_type", t)` and returns `true` when
  the remote call succeeds, `false` when it raises.
- A Python `raise` is an `Except.error` carrying the message; a Python dict
  built by successive key assignment is an association list whose lookup
  takes the latest binding.
-/

namespace XnatCleaner

/-- One session row, as produced by dax.XnatUtils.list_sessions
(the columns read by cleaner.py: ID, label, date, subject_ID). -/
structure SessionRecord where
  ID : String
  label : String
  date : String
  subject_ID : String
deriving DecidableEq, Repr

/-- One scan row, as produced by dax.XnatUtils.list_scans
(the columns read by cleaner.py: ID, series_description, scan_type). -/
structure ScanRecord where
  ID : String
  series_description : String
  scan_type : String
deriving DecidableEq, Repr

/-- The self.meta dictionary built at the end of get_metadata
(src/cleaner.py lines 61-67). -/
structure Meta where
  project : String
  nsessions : Nat
  session_date : List String
  session_id : List String
  session_label : List String
  subject_id : List String
deriving DecidableEq, Repr

/-- The state get_metadata leaves on the XnatSubject instance:
self.meta, self.session_df and self.scan_df. -/
structure Snapshot where
  meta : Meta
  session_df : List SessionRecord
  scan_df : List ScanRecord
deriving DecidableEq, Repr

/-- The message of the ValueError raised at src/cleaner.py line 59. -/
def tooManySessionsMsg : String :=
  "This subject has too many sessions in XNAT. Please combine them."

/-- Shallow embedding of XnatSubject.get_metadata (src/cleaner.py lines
41-69).  `session_data` is the result of dax.XnatUtils.list_sessions for
the subject; `list_scans` gives the scan rows of one session label.  The
scan rows of all sessions are concatenated in session order; the
ValueError is raised when the session count is not exactly 1, otherwise
meta/session_df/scan_df are populated. -/
def get_metadata (subject : String) (session_data : List SessionRecord)
    (list_scans : String → List ScanRecord) : Except String Snapshot :=
  let sess_df := session_data
  let scan_df := (sess_df.map (fun sess => list_scans sess.label)).flatten
  if session_data.length ≠ 1 then
    Except.error tooManySessionsMsg
  else
    Except.ok
      ⟨⟨subject.take 3, session_data.length,
        sess_df.map (fun s => s.date), sess_df.map (fun s => s.ID),
        sess_df.map (fun s => s.label), sess_df.map (fun s => s.subject_ID)⟩,
       sess_df, scan_df⟩

/-- One row of scan_type_renames.csv, with the columns read by cleaner.py:
project, series_description, scan_type, updated_scan_type. -/
structure RenameRule where
  project : String
  series_description : String
  scan_type : String
  updated_scan_type : String
deriving DecidableEq, Repr

/-- The column labels of the DataFrame read from scan_type_renames.csv. -/
def rename_csv_columns : List String :=
  ["project", "series_description", "scan_type", "updated_scan_type"]

/-- Python tuple unpacking `ii, s = v` applied to a string `v`: succeeds
only when the string has exactly two characters, otherwise raises
ValueError. -/
def unpack2 (s : String) : Except String (Char × Char) :=
  match s.data with
  | [a, b] => Except.ok (a, b)
  | [] => Except.error "ValueError: not enough values to unpack (expected 2, got 0)"
  | [_] => Except.error "ValueError: not enough values to unpack (expected 2, got 1)"
  | _ => Except.error "ValueError: too many values to unpack (expected 2)"

/-- The loop body of get_scan_rename_dict (src/cleaner.py lines 94-95).
`for ii, s in df.loc[...]` iterates over the DataFrame itself, which
yields its column labels, and unpacks each label into `ii, s`; were a
two-character label ever unpacked, the body would then evaluate
`s.series_description` on a string and raise AttributeError. -/
def columnUnpackLoop : List String → Except String (List ((String × String) × String))
  | [] => Except.ok []
  | c :: _ =>
    match unpack2 c with
    | Except.error e => Except.error e
    | Except.ok _ =>
      Except.error "AttributeError: str object has no attribute series_description"

/-- Shallow embedding of XnatSubject.get_scan_rename_dict (src/cleaner.py
lines 87-97).  `rules` are the rows of scan_type_renames.csv and `project`
is self.meta['project'].  The source filters the rows by project and then
iterates `for ii, s in df.loc[...]` — over the filtered DataFrame itself,
i.e. over its column labels — so the row filter result is never consumed. -/
def get_scan_rename_dict (rules : List RenameRule) (project : String) :
    Except String (List ((String × String) × String)) :=
  let _filtered := rules.filter (fun r => decide (r.project = project))
  columnUnpackLoop rename_csv_columns

/-- Lookup in a Python dict represented as the list of key-value
assignments in order: the latest binding of a key wins. -/
def dictGet (d : List ((String × String) × String)) (k : String × String) :
    Option String :=
  (d.reverse.find? (fun p => decide (p.1 = k))).map (fun p => p.2)

/-- The scan loop of XnatSubject.match_scan_types (src/cleaner.py lines
77-84), with the rename dict as input.  Returns the list of remote
`attrs.set('scan_type', new_type)` calls attempted, in order, each as
(scan ID, new type), together with `some msg` when one of those calls
raised: the source has no try/except around the call, so the exception
stops the loop and no later scan is visited. -/
def matchLoop (set_scan_type : String → String → Bool)
    (rename_dict : List ((String × String) × String)) (overwrite : Bool) :
    List ScanRecord → List (String × String) × Option String
  | [] => ([], none)
  | scan :: rest =>
    match dictGet rename_dict (scan.series_description, scan.scan_type) with
    | some new_type =>
      if overwrite then
        if set_scan_type scan.ID new_type then
          let r := matchLoop set_scan_type rename_dict overwrite rest
          ((scan.ID, new_type) :: r.1, r.2)
        else
          ([(scan.ID, new_type)], some "RemoteMutationError")
      else
        matchLoop set_scan_type rename_dict overwrite rest
    | none => matchLoop set_scan_type rename_dict overwrite rest

/-- Shallow embedding of XnatSubject.match_scan_types (src/cleaner.py lines
72-84).  In the source the rename dict comes from get_scan_rename_dict;
here it is a parameter so the matcher can be studied against a given
index.  The result pairs the loop outcome (attempted remote calls and the
exception, if any, that aborted the loop) with self.scan_df after the
call; the source body contains no assignment to self.scan_df, so the
frame is returned as it came in. -/
def match_scan_types (scan_df : List ScanRecord)
    (rename_dict : List ((String × String) × String)) (overwrite : Bool)
    (set_scan_type : String → String → Bool) :
    (List (String × String) × Option String) × List ScanRecord :=
  (matchLoop set_scan_type rename_dict overwrite scan_df, scan_df)

/-- pandas Series.duplicated with the default keep='first', carried out
with the accumulator of already-seen values: position i is marked true
iff its value occurred at an earlier position (or is in `seen`). -/
def duplicatedAux (seen : List String) : List String → List Bool
  | [] => []
  | x :: xs => decide (x ∈ seen) :: duplicatedAux (x :: seen) xs

/-- df.scan_type.duplicated() over the whole column. -/
def duplicatedMask (l : List String) : List Bool :=
  duplicatedAux [] l

/-- Shallow embedding of check_duplicate_scans (src/cleaner.py lines
112-120): `duplicates = df.loc[df.scan_type.duplicated()]` selects the
rows at the mask's true positions; the check passes (prints 'No duplicate
scan types.') iff that selection is empty, otherwise the selected rows
are reported. -/
def check_duplicate_scans (scan_df : List ScanRecord) : Bool × List ScanRecord :=
  let duplicates :=
    ((scan_df.zip (duplicatedMask (scan_df.map (fun r => r.scan_type)))).filter
      (fun p => p.2)).map (fun p => p.1)
  (duplicates.isEmpty, duplicates)

/-- The marker vocabulary of check_incomplete_scans (src/cleaner.py line
126). -/
def bad_strings : List String :=
  ["inc", "bad", "incomplete"]

/-- Python `needle in hay` on strings over their character lists:
true iff needle occurs as a contiguous substring of hay. -/
def leadsWith : List Char → List Char → Bool
  | [], _ => true
  | _ :: _, [] => false
  | a :: as, b :: bs => a == b && leadsWith as bs

/-- Substring occurrence: `containsSub needle hay` is Python
`needle in hay` for the underlying strings. -/
def containsSub (needle : List Char) : List Char → Bool
  | [] => leadsWith needle []
  | c :: rest => leadsWith needle (c :: rest) || containsSub needle rest

/-- The predicate applied to df.scan_type at src/cleaner.py line 128:
`any(s in x for s in bad_strings)`, with x the scan_type as written —
no case folding is applied. -/
def scanIsBad (r : ScanRecord) : Bool :=
  bad_strings.any (fun s => containsSub s.data r.scan_type.data)

/-- Shallow embedding of check_incomplete_scans (src/cleaner.py lines
123-134): the check passes iff `bad_scans.sum() == 0`, i.e. no row
satisfies the predicate, and otherwise reports the rows selected by
`df.loc[bad_scans==True]`. -/
def check_incomplete_scans (scan_df : List ScanRecord) : Bool × List ScanRecord :=
  (decide (scan_df.countP scanIsBad = 0), scan_df.filter scanIsBad)

/-- The names bound inside test_xnat_subject (src/cleaner.py lines
102-139): its parameter and its two inner functions.  The print at line
137 formats `x.subject`, and `x` is not among them. -/
def test_scope_names : List String :=
  ["xnat_subject", "check_duplicate_scans", "check_incomplete_scans"]

/-- Shallow embedding of test_xnat_subject (src/cleaner.py lines 102-139).
The first statement of the body evaluates `x.subject`; resolving the name
`x` against the function's bound names fails, so a NameError is raised
before either check runs.  Were the name defined, the run would return
both checks' verdicts and reports. -/
def test_xnat_subject (xnat_subject : List ScanRecord) :
    Except String ((Bool × List ScanRecord) × (Bool × List ScanRecord)) :=
  if test_scope_names.contains "x" then
    Except.ok (check_duplicate_scans xnat_subject, check_incomplete_scans xnat_subject)
  else
    Except.error "NameError: name x is not defined"

/-- Example session row used to instantiate universally quantified claims. -/
def exSession : SessionRecord := ⟨"S1", "LD4001_v1_MR", "2020-01-01", "SUBJ1"⟩

/-- Example scan listing used to instantiate universally quantified claims. -/
def exListScans : String → List ScanRecord :=
  fun _ => [⟨"101", "T1 MPRAGE", "raw"⟩]

/-- Example scan row whose key ("T1", "raw") is in exRenameDict. -/
def scanT1raw : ScanRecord := ⟨"101", "T1", "raw"⟩

/-- Example scan row whose key ("T2", "raw") is in exRenameDict. -/
def scanT2raw : ScanRecord := ⟨"102", "T2", "raw"⟩

/-- Example rename dict matching both example scans. -/
def exRenameDict : List ((String × String) × String) :=
  [(("T1", "raw"), "T1w"), (("T2", "raw"), "T2w")]

/-- A client whose attrs.set call always succeeds. -/
def clientOk : String → String → Bool := fun _ _ => true

/-- A client whose attrs.set call raises for scan ID 101 and succeeds for
every other scan. -/
def clientFails101 : String → String → Bool := fun i _ => decide (i ≠ "101")

/-- The rule table of the C2 example: two rules for project P, one for
project Q. -/
def claimRules : List RenameRule :=
  [⟨"P", "T1", "raw", "T1w"⟩, ⟨"P", "T2", "raw", "T2w"⟩, ⟨"Q", "T1", "raw", "X"⟩]

/-- First row of the duplicate-check example: id 1, type T1w. -/
def dupRow1 : ScanRecord := ⟨"1", "sd1", "T1w"⟩

/-- Second row of the duplicate-check example: id 2, type T1w again. -/
def dupRow2 : ScanRecord := ⟨"2", "sd2", "T1w"⟩

/-- Third row of the duplicate-check example: id 3, type T2w. -/
def dupRow3 : ScanRecord := ⟨"3", "sd3", "T2w"⟩

/-- C1: the metadata load succeeds with exactly one session record in the
snapshot iff the session listing has exactly one row, and raises the
too-many-sessions ValueError iff it has 0 or ≥ 2 rows. -/
theorem c1_get_metadata_session_count (subject : String)
    (session_data : List SessionRecord) (list_scans : String → List ScanRecord) :
    ((∃ snap, get_metadata subject session_data list_scans = Except.ok snap ∧
        snap.session_df.length = 1) ↔ session_data.length = 1) ∧
    (get_metadata subject session_data list_scans = Except.error tooManySessionsMsg ↔
      session_data.length ≠ 1) := by
  unfold get_metadata
  by_cases h : session_data.length = 1 <;> simp [h]

/-- C1 witness: at a concrete one-session listing the load succeeds with a
single session record, and at a concrete two-session listing it raises the
too-many-sessions error. -/
theorem c1_get_metadata_session_count_witness :
    (∃ snap, get_metadata "LD4001_v1" [exSession] exListScans = Except.ok snap ∧
        snap.session_df.length = 1) ∧
    get_metadata "LD4001_v1" [exSession, exSession] exListScans =
      Except.error tooManySessionsMsg :=
  ⟨(c1_get_metadata_session_count "LD4001_v1" [exSession] exListScans).1.mpr (by decide),
   (c1_get_metadata_session_count "LD4001_v1" [exSession, exSession] exListScans).2.mpr
     (by decide)⟩

/-- C2: building the rename index raises instead of returning a mapping —
`for ii, s in df.loc[...]` iterates the DataFrame's column labels, and
unpacking the first label 'project' raises ValueError.  Evaluated at the
claim's own rule table scoped to project P, and shown for every rule
table and project key. -/
theorem c2_get_scan_rename_dict_raises :
    get_scan_rename_dict claimRules "P" =
      Except.error "ValueError: too many values to unpack (expected 2)" ∧
    ∀ (rules : List RenameRule) (project : String),
      get_scan_rename_dict rules project =
        Except.error "ValueError: too many values to unpack (expected 2)" :=
  ⟨rfl, fun _ _ => rfl⟩

/-- Helper: with a client that always succeeds, the commit loop attempts
exactly one set call per matched scan, in scan order, and no exception
occurs. -/
theorem matchLoop_commit_eq (set_scan_type : String → String → Bool)
    (d : List ((String × String) × String))
    (h : ∀ i t, set_scan_type i t = true) :
    ∀ scan_df : List ScanRecord,
      matchLoop set_scan_type d true scan_df =
        (scan_df.filterMap (fun s =>
          (dictGet d (s.series_description, s.scan_type)).map
            (fun nt => (s.ID, nt))), none)
  | [] => rfl
  | s :: rest => by
    simp only [matchLoop, List.filterMap_cons]
    cases hd : dictGet d (s.series_description, s.scan_type) with
    | none => simpa using matchLoop_commit_eq set_scan_type d h rest
    | some nt => simp [h, matchLoop_commit_eq set_scan_type d h rest]

/-- C3 counterexample: on a one-scan snapshot whose key is in the index,
the commit run attempts the remote set call, but the snapshot's scan row
still carries its original scan_type "raw", not "T1w" as the claim
requires. -/
theorem c3_local_update_counterexample :
    (match_scan_types [scanT1raw] exRenameDict true clientOk).1.1 = [("101", "T1w")] ∧
    (match_scan_types [scanT1raw] exRenameDict true clientOk).2 = [scanT1raw] ∧
    scanT1raw.scan_type = "raw" ∧ ("raw" : String) ≠ "T1w" := by
  refine ⟨rfl, rfl, rfl, ?_⟩
  decide

/-- C3 amended: with commit=true and a client that succeeds, the matcher
invokes the client once per matched scan, setting the rule's updated
type, but the snapshot's scan rows are returned unchanged — the local
scan_type values are never updated to mirror the remote change. -/
theorem c3_commit_remote_only (scan_df : List ScanRecord)
    (rename_dict : List ((String × String) × String))
    (set_scan_type : String → String → Bool)
    (h : ∀ i t, set_scan_type i t = true) :
    (match_scan_types scan_df rename_dict true set_scan_type).1 =
      (scan_df.filterMap (fun s =>
        (dictGet rename_dict (s.series_description, s.scan_type)).map
          (fun nt => (s.ID, nt))), none) ∧
    (match_scan_types scan_df rename_dict true set_scan_type).2 = scan_df :=
  ⟨matchLoop_commit_eq set_scan_type rename_dict h scan_df, rfl⟩

/-- C3 witness: the amended statement at a concrete one-scan snapshot and
the always-succeeding client. -/
theorem c3_commit_remote_only_witness :
    (match_scan_types [scanT1raw] exRenameDict true clientOk).1 =
      ([scanT1raw].filterMap (fun s =>
        (dictGet exRenameDict (s.series_description, s.scan_type)).map
          (fun nt => (s.ID, nt))), none) ∧
    (match_scan_types [scanT1raw] exRenameDict true clientOk).2 = [scanT1raw] :=
  c3_commit_remote_only [scanT1raw] exRenameDict clientOk (fun _ _ => rfl)

/-- C4 counterexample: running the commit pass a second time on the
snapshot returned by the first pass attempts the same remote set call
again — the second application does not match zero scans. -/
theorem c4_idempotence_counterexample :
    (match_scan_types (match_scan_types [scanT1raw] exRenameDict true clientOk).2
        exRenameDict true clientOk).1.1 = [("101", "T1w")] ∧
    ([("101", "T1w")] : List (String × String)) ≠ [] := by
  refine ⟨rfl, ?_⟩
  decide

/-- C4 amended: because the first pass never updates the snapshot's
scan_type values, a second commit pass over the returned snapshot repeats
exactly the first pass — same matches, same attempted remote mutations,
same returned snapshot. -/
theorem c4_second_pass_repeats_first (scan_df : List ScanRecord)
    (rename_dict : List ((String × String) × String))
    (set_scan_type : String → String → Bool) :
    match_scan_types (match_scan_types scan_df rename_dict true set_scan_type).2
        rename_dict true set_scan_type =
      match_scan_types scan_df rename_dict true set_scan_type := rfl

/-- Helper: the dry-run loop attempts no set call and raises nothing. -/
theorem matchLoop_dry (set_scan_type : String → String → Bool)
    (d : List ((String × String) × String)) :
    ∀ scan_df : List ScanRecord, matchLoop set_scan_type d false scan_df = ([], none)
  | [] => rfl
  | s :: rest => by
    simp only [matchLoop]
    cases dictGet d (s.series_description, s.scan_type) with
    | none => exact matchLoop_dry set_scan_type d rest
    | some nt => simpa using matchLoop_dry set_scan_type d rest

/-- C5: with commit=false the matcher attempts no remote set call, raises
nothing, and returns the snapshot's scan rows unchanged, whatever the
snapshot, index and client. -/
theorem c5_dry_run_no_mutation (scan_df : List ScanRecord)
    (rename_dict : List ((String × String) × String))
    (set_scan_type : String → String → Bool) :
    match_scan_types scan_df rename_dict false set_scan_type = (([], none), scan_df) := by
  unfold match_scan_types
  rw [matchLoop_dry]

/-- C8 counterexample: two matched scans and a client that raises on the
first one's set call — the second scan's key is in the index, yet its
commit is never attempted: the loop stops at the exception. -/
theorem c8_abort_counterexample :
    dictGet exRenameDict (scanT2raw.series_description, scanT2raw.scan_type) =
      some "T2w" ∧
    (match_scan_types [scanT1raw, scanT2raw] exRenameDict true clientFails101).1 =
      ([("101", "T1w")], some "RemoteMutationError") ∧
    ("102", "T2w") ∉
      (match_scan_types [scanT1raw, scanT2raw] exRenameDict true clientFails101).1.1 := by
  refine ⟨rfl, rfl, ?_⟩
  decide

/-- Helper: when the loop reaches a matched scan whose set call raises,
after a block of scans whose own set calls all succeed, the attempted
calls are those of the matched scans of the block, in order, then the
failing attempt; the exception stops the loop there. -/
theorem matchLoop_fail_at (set_scan_type : String → String → Bool)
    (d : List ((String × String) × String)) (s : ScanRecord)
    (ys : List ScanRecord) (nt : String)
    (hmatch : dictGet d (s.series_description, s.scan_type) = some nt)
    (hfail : set_scan_type s.ID nt = false) :
    ∀ xs : List ScanRecord, (∀ x ∈ xs, ∀ t, set_scan_type x.ID t = true) →
      matchLoop set_scan_type d true (xs ++ s :: ys) =
        (xs.filterMap (fun q =>
          (dictGet d (q.series_description, q.scan_type)).map
            (fun t => (q.ID, t))) ++ [(s.ID, nt)], some "RemoteMutationError")
  | [], _ => by simp [matchLoop, hmatch, hfail]
  | x :: xs, hok => by
    have ih := matchLoop_fail_at set_scan_type d s ys nt hmatch hfail xs
      (fun q hq t => hok q (List.mem_cons_of_mem _ hq) t)
    simp only [List.cons_append, matchLoop, List.filterMap_cons]
    cases hd : dictGet d (x.series_description, x.scan_type) with
    | none => simpa using ih
    | some t =>
      have hx := hok x (List.mem_cons_self _ _) t
      simp [hx, ih]

/-- C8 amended: when the remote set call raises for a matched scan at any
position of the pass — here after any block of scans whose own set calls
succeed — the exception propagates out of the loop: the attempted calls
are exactly those for the matched scans before it, then the failing
attempt, and no scan after the failing one is visited, so no further
commit is attempted. -/
theorem c8_failure_aborts_run (xs : List ScanRecord) (s : ScanRecord)
    (ys : List ScanRecord) (d : List ((String × String) × String))
    (set_scan_type : String → String → Bool) (nt : String)
    (hok : ∀ x ∈ xs, ∀ t, set_scan_type x.ID t = true)
    (hmatch : dictGet d (s.series_description, s.scan_type) = some nt)
    (hfail : set_scan_type s.ID nt = false) :
    match_scan_types (xs ++ s :: ys) d true set_scan_type =
      ((xs.filterMap (fun q =>
          (dictGet d (q.series_description, q.scan_type)).map
            (fun t => (q.ID, t))) ++ [(s.ID, nt)],
        some "RemoteMutationError"), xs ++ s :: ys) := by
  unfold match_scan_types
  rw [matchLoop_fail_at set_scan_type d s ys nt hmatch hfail xs hok]

/-- C8 witness: the amended statement at a concrete three-scan snapshot —
a matched scan whose commit succeeds, then the matched scan 101 on which
the client raises, then a further matched scan: the calls are the
successful one and the failing attempt, and the trailing scan's commit is
never attempted. -/
theorem c8_failure_aborts_run_witness :
    match_scan_types [scanT2raw, scanT1raw, scanT2raw] exRenameDict true clientFails101 =
      (([("102", "T2w"), ("101", "T1w")], some "RemoteMutationError"),
       [scanT2raw, scanT1raw, scanT2raw]) :=
  c8_failure_aborts_run [scanT2raw] scanT1raw [scanT2raw] exRenameDict clientFails101
    "T1w"
    (by
      intro x hx t
      have h := List.mem_singleton.mp hx
      subst h
      rfl)
    (by decide) (by decide)

/-- C7: the substring test at line 128 uses the scan_type as written, so a
scan typed "Incomplete" passes the check even though, lowercased, it
contains both "inc" and "incomplete"; the claim's all-lowercase examples
behave as stated. -/
theorem c7_incomplete_check_case_sensitive :
    check_incomplete_scans [⟨"1", "sd1", "Incomplete"⟩] = (true, []) ∧
    containsSub "inc".data ("Incomplete".data.map Char.toLower) = true ∧
    containsSub "incomplete".data ("Incomplete".data.map Char.toLower) = true ∧
    check_incomplete_scans [⟨"1", "sd1", "incomplete_scan"⟩] =
      (false, [⟨"1", "sd1", "incomplete_scan"⟩]) ∧
    check_incomplete_scans [⟨"1", "sd1", "T1w"⟩] = (true, []) := by
  refine ⟨rfl, ?_, ?_, rfl, rfl⟩ <;> decide

/-- C9: running test_xnat_subject raises on every snapshot — its first
print formats `x.subject` and the name `x` is undefined, so a NameError
occurs before either quality check runs. -/
theorem c9_test_always_raises (scan_df : List ScanRecord) :
    test_xnat_subject scan_df = Except.error "NameError: name x is not defined" := rfl

/-- Helper: the duplicate report (rows selected by the keep-first mask) is
empty iff the scan_type column has no repeats and no value was already in
the accumulator of previously seen values. -/
theorem dupReport_nil_iff :
    ∀ (l : List ScanRecord) (seen : List String),
      (((l.zip (duplicatedAux seen (l.map (fun r => r.scan_type)))).filter
          (fun p => p.2)).map (fun p => p.1)) = [] ↔
        ((l.map (fun r => r.scan_type)).Nodup ∧ ∀ q ∈ l, q.scan_type ∉ seen)
  | [], seen => by simp
  | r :: rest, seen => by
    by_cases hmem : r.scan_type ∈ seen
    · simp [duplicatedAux, hmem]
    · rw [List.map_cons, duplicatedAux, List.zip_cons_cons, List.filter_cons,
        if_neg (by simpa using hmem)]
      rw [dupReport_nil_iff rest (r.scan_type :: seen)]
      constructor
      · rintro ⟨hnd, hall⟩
        refine ⟨?_, fun q hq => ?_⟩
        · rw [List.nodup_cons]
          refine ⟨fun hmt => ?_, hnd⟩
          obtain ⟨q, hq, hqt⟩ := List.mem_map.mp hmt
          exact hall q hq (by rw [hqt]; exact List.mem_cons_self _ _)
        · rcases List.mem_cons.mp hq with h | h
          · rw [h]; exact hmem
          · exact fun hs => hall q h (List.mem_cons_of_mem _ hs)
      · rintro ⟨hnd, hall⟩
        rw [List.nodup_cons] at hnd
        refine ⟨hnd.2, fun q hq hqs => ?_⟩
        rcases List.mem_cons.mp hqs with h | h
        · exact hnd.1 (by rw [← h]; exact List.mem_map_of_mem _ hq)
        · exact hall q (List.mem_cons_of_mem _ hq) h

/-- Helper: the number of rows of a given scan_type value selected by the
keep-first mask is the number of its occurrences, less one unless the
value was already in the accumulator. -/
theorem dupReport_count :
    ∀ (l : List ScanRecord) (seen : List String) (v : String),
      ((((l.zip (duplicatedAux seen (l.map (fun r => r.scan_type)))).filter
          (fun p => p.2)).map (fun p => p.1)).filter
            (fun r => decide (r.scan_type = v))).length =
        if v ∈ seen then (l.filter (fun r => decide (r.scan_type = v))).length
        else (l.filter (fun r => decide (r.scan_type = v))).length - 1
  | [], seen, v => by simp
  | r :: rest, seen, v => by
    have ih := dupReport_count rest (r.scan_type :: seen) v
    by_cases hv : v = r.scan_type
    · subst hv
      by_cases hmem : r.scan_type ∈ seen <;>
        simp_all [duplicatedAux, List.filter_cons, List.mem_cons]
    · have hv' : ¬ r.scan_type = v := fun h => hv h.symm
      by_cases hmem : r.scan_type ∈ seen <;>
        simp_all [duplicatedAux, List.filter_cons, List.mem_cons]

/-- Helper: the keep-first mask at the position right after a block `xs` is
false exactly when the value there is neither in the accumulator nor in
`xs`. -/
theorem duplicatedAux_getElem_first :
    ∀ (xs : List String) (t : String) (ys seen : List String),
      (duplicatedAux seen (xs ++ t :: ys))[xs.length]? =
        some (decide (t ∈ seen ∨ t ∈ xs))
  | [], t, ys, seen => by simp [duplicatedAux]
  | x :: xs, t, ys, seen => by
    simp only [List.cons_append, duplicatedAux, List.length_cons,
      List.getElem?_cons_succ, List.append_eq]
    rw [duplicatedAux_getElem_first xs t ys (x :: seen)]
    exact congrArg some (decide_eq_decide.mpr (by simp [List.mem_cons]; tauto))

/-- C6 counterexample: on the claim's three-row example the check fails,
but the report holds only the second T1w row — the first row, which also
carries the duplicated value, is not reported. -/
theorem c6_first_duplicate_row_not_reported :
    (check_duplicate_scans [dupRow1, dupRow2, dupRow3]).1 = false ∧
    (check_duplicate_scans [dupRow1, dupRow2, dupRow3]).2 = [dupRow2] ∧
    dupRow1.scan_type = dupRow2.scan_type ∧
    dupRow1 ∉ (check_duplicate_scans [dupRow1, dupRow2, dupRow3]).2 := by
  refine ⟨rfl, rfl, rfl, ?_⟩
  decide

/-- C6 amended: the duplicate-scan-type check passes iff no scan_type
value repeats across the scans; when it fails, the report holds the
second and later occurrences of each repeated value (see the C10 theorem),
not every row carrying it. -/
theorem c6_duplicate_check_passes_iff_nodup (scan_df : List ScanRecord) :
    (check_duplicate_scans scan_df).1 = true ↔
      (scan_df.map (fun r => r.scan_type)).Nodup := by
  unfold check_duplicate_scans duplicatedMask
  rw [List.isEmpty_iff, dupReport_nil_iff scan_df []]
  simp

/-- C6 witness: the amended statement at the claim's two-row example,
where the check passes. -/
theorem c6_duplicate_check_passes_iff_nodup_witness :
    (check_duplicate_scans [dupRow1, dupRow3]).1 = true :=
  (c6_duplicate_check_passes_iff_nodup [dupRow1, dupRow3]).mpr (by decide)

/-- C10: a scan_type value occurring n times contributes exactly n-1 rows
to the duplicate report, and the mask is false at the first row carrying
each value, so the first occurrence is never reported. -/
theorem c10_duplicate_report_marks_repeats (scan_df : List ScanRecord) (v : String) :
    (((check_duplicate_scans scan_df).2.filter
        (fun r => decide (r.scan_type = v))).length =
      ((scan_df.filter (fun r => decide (r.scan_type = v))).length) - 1) ∧
    ∀ xs s ys, scan_df = xs ++ s :: ys →
      s.scan_type ∉ xs.map (fun r => r.scan_type) →
      (duplicatedMask (scan_df.map (fun r => r.scan_type)))[xs.length]? =
        some false := by
  constructor
  · have h := dupReport_count scan_df [] v
    simpa [check_duplicate_scans, duplicatedMask] using h
  · rintro xs s ys rfl hfresh
    unfold duplicatedMask
    rw [List.map_append, List.map_cons]
    have h := duplicatedAux_getElem_first (xs.map (fun r => r.scan_type))
      s.scan_type (ys.map (fun r => r.scan_type)) []
    rw [List.length_map] at h
    rw [h]
    simp [hfresh]

/-- C10 witness: on the three-row example, the value T1w occurs twice and
contributes one report row, and the mask is false at position 0, the
first T1w row. -/
theorem c10_duplicate_report_marks_repeats_witness :
    (((check_duplicate_scans [dupRow1, dupRow2, dupRow3]).2.filter
        (fun r => decide (r.scan_type = "T1w"))).length =
      (([dupRow1, dupRow2, dupRow3].filter
        (fun r => decide (r.scan_type = "T1w"))).length) - 1) ∧
    (duplicatedMask ([dupRow1, dupRow2, dupRow3].map (fun r => r.scan_type)))[0]? =
      some false := by
  have h := c10_duplicate_report_marks_repeats [dupRow1, dupRow2, dupRow3] "T1w"
  exact ⟨h.1, h.2 [] dupRow1 [dupRow2, dupRow3] rfl (by decide)⟩

end XnatCleaner
